import Mathlib

/-!
Verification development for the GTM_Automate backend
(`gtm-automate-backend`): a shallow embedding of the input
normalization / validation pipeline and of the resource-creation
orchestrator, together with theorems establishing the behavioural
properties of each component (C1-C10 below).

Source files embedded:
- `src/parser.py`   (format normalizer: JSON canonical / export form,
  tabular sheet row parsing)
- `src/schema.py`   (structural validation against `GTM_INPUT_SCHEMA`,
  referential validation of trigger references)
- `src/gtm_client.py` (`GTMClient.create_tag`: trigger-name resolution)
- `app.py`          (`main`: creation loops, trigger-ID map, final status)

Modelling conventions:
- Raw JSON values (the output of `json.load`) are modelled by the
  inductive type `JValue`.  Python dicts are ordered association lists;
  `json.load` keeps the last binding for a duplicated key, so raw-level
  key lookup is last-binding-wins.
- Machine-level concerns (file IO, logging, HTTP transport,
  authentication) are outside the embedded core, exactly as the spec
  scopes them out.  The remote tag-manager service is modelled as an
  oracle (`Remote`) giving the outcome of the n-th creation call of
  each kind, which captures every remote-service behaviour of the
  strictly sequential one-attempt-per-item protocol.
-/

/-- Raw JSON value, as produced by `json.load`.  Objects are ordered
field lists; numbers are modelled as integers (the identifiers that the
embedded code compares are strings or integers). -/
inductive JValue where
  | jnull : JValue
  | jbool : Bool → JValue
  | jnum : Int → JValue
  | jstr : String → JValue
  | jarr : List JValue → JValue
  | jobj : List (String × JValue) → JValue

mutual

/-- Structural (Python `==`) equality of raw JSON values is decidable. -/
def JValue.decEqJ : (a b : JValue) → Decidable (a = b)
  | .jnull, b =>
    match b with
    | .jnull => isTrue rfl
    | .jbool _ => isFalse nofun
    | .jnum _ => isFalse nofun
    | .jstr _ => isFalse nofun
    | .jarr _ => isFalse nofun
    | .jobj _ => isFalse nofun
  | .jbool x, b =>
    match b with
    | .jnull => isFalse nofun
    | .jbool y =>
      if h : x = y then isTrue (h ▸ rfl) else isFalse (fun heq => h (by cases heq; rfl))
    | .jnum _ => isFalse nofun
    | .jstr _ => isFalse nofun
    | .jarr _ => isFalse nofun
    | .jobj _ => isFalse nofun
  | .jnum x, b =>
    match b with
    | .jnull => isFalse nofun
    | .jbool _ => isFalse nofun
    | .jnum y =>
      if h : x = y then isTrue (h ▸ rfl) else isFalse (fun heq => h (by cases heq; rfl))
    | .jstr _ => isFalse nofun
    | .jarr _ => isFalse nofun
    | .jobj _ => isFalse nofun
  | .jstr x, b =>
    match b with
    | .jnull => isFalse nofun
    | .jbool _ => isFalse nofun
    | .jnum _ => isFalse nofun
    | .jstr y =>
      if h : x = y then isTrue (h ▸ rfl) else isFalse (fun heq => h (by cases heq; rfl))
    | .jarr _ => isFalse nofun
    | .jobj _ => isFalse nofun
  | .jarr x, b =>
    match b with
    | .jnull => isFalse nofun
    | .jbool _ => isFalse nofun
    | .jnum _ => isFalse nofun
    | .jstr _ => isFalse nofun
    | .jarr y =>
      match JValue.decEqArr x y with
      | isTrue h => isTrue (h ▸ rfl)
      | isFalse h => isFalse (fun heq => h (by cases heq; rfl))
    | .jobj _ => isFalse nofun
  | .jobj x, b =>
    match b with
    | .jnull => isFalse nofun
    | .jbool _ => isFalse nofun
    | .jnum _ => isFalse nofun
    | .jstr _ => isFalse nofun
    | .jarr _ => isFalse nofun
    | .jobj y =>
      match JValue.decEqFields x y with
      | isTrue h => isTrue (h ▸ rfl)
      | isFalse h => isFalse (fun heq => h (by cases heq; rfl))

def JValue.decEqArr : (a b : List JValue) → Decidable (a = b)
  | [], [] => isTrue rfl
  | [], _ :: _ => isFalse nofun
  | _ :: _, [] => isFalse nofun
  | a :: as, b :: bs =>
    match JValue.decEqJ a b with
    | isFalse h => isFalse (fun heq => h (by cases heq; rfl))
    | isTrue h1 =>
      match JValue.decEqArr as bs with
      | isFalse h => isFalse (fun heq => h (by cases heq; rfl))
      | isTrue h2 => isTrue (by rw [h1, h2])

def JValue.decEqFields : (a b : List (String × JValue)) → Decidable (a = b)
  | [], [] => isTrue rfl
  | [], _ :: _ => isFalse nofun
  | _ :: _, [] => isFalse nofun
  | (k1, v1) :: as, (k2, v2) :: bs =>
    if hk : k1 = k2 then
      match JValue.decEqJ v1 v2 with
      | isFalse h => isFalse (fun heq => h (by cases heq; rfl))
      | isTrue hv =>
        match JValue.decEqFields as bs with
        | isFalse h => isFalse (fun heq => h (by cases heq; rfl))
        | isTrue ht => isTrue (by rw [hk, hv, ht])
    else isFalse (fun heq => hk (by cases heq; rfl))

end

instance : DecidableEq JValue := JValue.decEqJ

namespace JValue

/-- Last-binding-wins lookup in an object's field list: the semantics a
Python dict obtained from `json.load` gives (later duplicate keys
override earlier ones). -/
def findField : List (String × JValue) → String → Option JValue
  | [], _ => none
  | (k, v) :: rest, key =>
    match findField rest key with
    | some r => some r
    | none => if k = key then some v else none

/-- `d.get(key, dflt)` on a raw value: defaulting field lookup.
(Python raises `TypeError` when `d` is not a dict; the embedded code
only applies `.get` to dict-shaped values.) -/
def jget (d : JValue) (key : String) (dflt : JValue) : JValue :=
  match d with
  | jobj fields => (findField fields key).getD dflt
  | _ => dflt

/-- Field lookup without a default (`None` when absent), i.e.
`d.get(key)`. -/
def jget0 (d : JValue) (key : String) : JValue :=
  jget d key jnull

/-- `key in d` on a dict-shaped raw value. -/
def hasKey (d : JValue) (key : String) : Bool :=
  match d with
  | jobj fields => (findField fields key).isSome
  | _ => false

/-- The element list of an array-shaped raw value. -/
def items : JValue → List JValue
  | jarr l => l
  | _ => []

end JValue

/-! ## Format normalizer (`src/parser.py`) — JSON encoding -/

/-- Python-dict build-then-lookup used by
`FileParser._map_trigger_ids_to_names`: the dict comprehension
`{t.get('triggerId'): t.get('name') for t in triggers}` keeps the last
binding for a duplicated key, so lookup prefers the later pair. -/
def pyDictFind : List (JValue × JValue) → JValue → Option JValue
  | [], _ => none
  | (k, v) :: rest, key =>
    match pyDictFind rest key with
    | some r => some r
    | none => if k = key then some v else none

/-- `FileParser._map_trigger_ids_to_names` (parser.py 147-160): build
`trigger_map = {t.get('triggerId'): t.get('name') for t in triggers}`
and return `[trigger_map.get(tid, tid) for tid in trigger_ids]`. -/
def map_trigger_ids_to_names (trigger_ids : List JValue) (triggers : List JValue) :
    List JValue :=
  let trigger_map := triggers.map (fun t => (t.jget0 "triggerId", t.jget0 "name"))
  trigger_ids.map (fun tid => (pyDictFind trigger_map tid).getD tid)

/-- Parameter conversion shared by the export-form tag and variable
loops (parser.py 77-82 and 132-137): each raw parameter is rewritten to
`{key: p.get('key'), type: 'template', value: p.get('value', '')}`. -/
def convertExportParam (p : JValue) : JValue :=
  .jobj [("key", p.jget0 "key"), ("type", .jstr "template"),
         ("value", p.jget "value" (.jstr ""))]

/-- Export-form tag conversion (parser.py 69-98): copy `name`/`type`,
rewrite the parameter array, and rewrite each trigger-reference array
through `_map_trigger_ids_to_names` when the key is present. -/
def convertExportTag (cvTriggers : List JValue) (tag : JValue) : JValue :=
  .jobj
    ([("name", tag.jget0 "name"), ("type", tag.jget0 "type"),
      ("parameter", .jarr ((tag.jget "parameter" (.jarr [])).items.map convertExportParam))]
     ++ (if tag.hasKey "firingTriggerId" then
          [("firingTriggerId",
            .jarr (map_trigger_ids_to_names (tag.jget0 "firingTriggerId").items cvTriggers))]
         else [])
     ++ (if tag.hasKey "blockingTriggerId" then
          [("blockingTriggerId",
            .jarr (map_trigger_ids_to_names (tag.jget0 "blockingTriggerId").items cvTriggers))]
         else []))

/-- Export-form trigger conversion (parser.py 103-119): copy
`name`/`type` and pass the three optional filter fields through
verbatim when present. -/
def convertExportTrigger (trigger : JValue) : JValue :=
  .jobj
    ([("name", trigger.jget0 "name"), ("type", trigger.jget0 "type")]
     ++ (if trigger.hasKey "filter" then
          [("filter", trigger.jget0 "filter")] else [])
     ++ (if trigger.hasKey "customEventFilter" then
          [("customEventFilter", trigger.jget0 "customEventFilter")] else [])
     ++ (if trigger.hasKey "autoEventFilter" then
          [("autoEventFilter", trigger.jget0 "autoEventFilter")] else []))

/-- Export-form variable conversion (parser.py 124-139). -/
def convertExportVariable (var : JValue) : JValue :=
  .jobj
    [("name", var.jget0 "name"), ("type", var.jget0 "type"),
     ("parameter", .jarr ((var.jget "parameter" (.jarr [])).items.map convertExportParam))]

/-- `FileParser._convert_gtm_export` (parser.py 54-145): convert the
nested export form keyed by `containerVersion` into the canonical
`{variables, triggers, tags}` shape. -/
def convert_gtm_export (export_data : JValue) : JValue :=
  let container_version := export_data.jget "containerVersion" (.jobj [])
  let cvTriggers := (container_version.jget "trigger" (.jarr [])).items
  let tags := (container_version.jget "tag" (.jarr [])).items.map
    (convertExportTag cvTriggers)
  let triggers := cvTriggers.map convertExportTrigger
  let vars := (container_version.jget "variable" (.jarr [])).items.map
    convertExportVariable
  .jobj [("variables", .jarr vars), ("triggers", .jarr triggers),
         ("tags", .jarr tags)]

/-- The normalization step of `FileParser.parse_json` (parser.py 29-41)
once the file is decoded: when the top-level object has a
`containerVersion` key the export conversion runs, otherwise the data
is returned unchanged. -/
def normalize_json_data (data : JValue) : JValue :=
  if data.hasKey "containerVersion" then convert_gtm_export data else data

/-! ## Tabular encoding (`src/parser.py`, Variables sheet) -/

/-- A canonical parameter triple `{key, type, value}` (spec §3). -/
structure Param where
  key : String
  type : String
  value : String
deriving DecidableEq, Repr

/-- A tabular sheet row.  A column maps to `none` when its cell is NaN
(`pd.isna`), and to `some s` when the cell is present with `str`-image
`s`; a column absent from the sheet has no entry at all.  Pandas column
labels are unique, so first-match lookup is exact. -/
structure Row where
  cells : List (String × Option String)
deriving Repr

namespace Row

/-- Column lookup: `none` = column absent, `some none` = NaN cell,
`some (some s)` = cell with string image `s`. -/
def find (r : Row) (k : String) : Option (Option String) :=
  (r.cells.find? (fun p => p.1 = k)).map (·.2)

/-- `k in row and not pd.isna(row[k])` (and equally
`not pd.isna(row.get(k))`): the cell exists and is not NaN; returns the
cell's string image. -/
def cell (r : Row) (k : String) : Option String :=
  match r.find k with
  | some (some s) => some s
  | _ => none

/-- `str(row.get(k, dflt))`: the default applies only when the column
is absent; a NaN cell renders as the string `"nan"` (the `str` image of
the float NaN that pandas stores). -/
def cellD (r : Row) (k : String) (dflt : String) : String :=
  match r.find k with
  | none => dflt
  | some none => "nan"
  | some (some s) => s

end Row

/-- Splitting a character list on a separator character, keeping empty
segments (so the empty list yields one empty segment). -/
def splitCharList (sep : Char) : List Char → List (List Char)
  | [] => [[]]
  | c :: rest =>
    match splitCharList sep rest with
    | [] => [[]]
    | h :: t => if c = sep then [] :: h :: t else (c :: h) :: t

/-- Python `s.split(sep)` for a one-character separator (the embedded
code only splits on `'|'` and `':'`): segments between separator
occurrences, empty segments kept, `''.split(sep) == ['']`. -/
def pySplit (sep : Char) (s : String) : List String :=
  (splitCharList sep s.data).map (fun l => String.mk l)

/-- Python `s.strip()`: remove leading and trailing whitespace. -/
def pyStrip (s : String) : String :=
  String.mk
    (((s.data.dropWhile Char.isWhitespace).reverse.dropWhile Char.isWhitespace).reverse)

/-- The `parameter_key`/`parameter_value` splitting shared by
`FileParser._parse_variables_sheet` (parser.py 246-256) and
`FileParser._parse_tags_sheet` (parser.py 352-362): split both cells on
`|`, pair by position (`param_values[i] if i < len(param_values) else ''`),
force type `template`, and strip each key and value. -/
def split_kv_params (key_cell value_cell : String) : List Param :=
  let param_keys := pySplit '|' key_cell
  let param_values := pySplit '|' value_cell
  param_keys.enum.map (fun p =>
    { key := pyStrip p.2, type := "template",
      value := pyStrip (param_values.getD p.1 "") })

/-- A canonical variable entry as the parser produces it. -/
structure VariableSpec where
  name : String
  type : String
  parameter : Option (List Param)
deriving DecidableEq, Repr

/-- One row of `FileParser._parse_variables_sheet` (parser.py 227-258):
skip the row when the `name` cell is missing or NaN; otherwise build
the variable with a synthesized `value` parameter (when the `value`
cell is present and non-NaN) followed by the split
`parameter_key`/`parameter_value` pairs (when the `parameter_key` cell
is present and non-NaN). -/
def parse_variable_row (row : Row) : Option VariableSpec :=
  match row.cell "name" with
  | none => none
  | some nameCell =>
    let valueParams : List Param :=
      match row.cell "value" with
      | some v => [{ key := "value", type := "template", value := v }]
      | none => []
    let params : List Param :=
      match row.cell "parameter_key" with
      | some kc => valueParams ++ split_kv_params kc (row.cellD "parameter_value" "")
      | none => valueParams
    some { name := nameCell, type := row.cellD "type" "v", parameter := some params }

/-- `FileParser._parse_variables_sheet` over all rows: rows whose
`name` cell is missing/NaN are silently skipped. -/
def parse_variables_sheet (rows : List Row) : List VariableSpec :=
  rows.filterMap parse_variable_row

/-! ## Schema validator (`src/schema.py`) -/

/-- The string image Python interpolation gives a raw value that is a
string (the only case arising after structural validation, which forces
`name` fields and trigger references to be strings). -/
def JValue.pyStr : JValue → String
  | .jstr s => s
  | _ => ""

/-- Is the raw value a JSON string? -/
def isStrVal : JValue → Bool
  | .jstr _ => true
  | _ => false

/-- Draft-7 semantics of a `required` property constrained to
`{"type": "string"}`: the field is present and is a string. -/
def strField (fields : List (String × JValue)) (k : String) : Bool :=
  match JValue.findField fields k with
  | some (.jstr _) => true
  | _ => false

/-- Draft-7 semantics of a non-`required` property constrained to
`{"type": "array", "items": ...}`: absent, or an array each of whose
elements satisfies the item schema. -/
def optArrField (fields : List (String × JValue)) (k : String) (itemOk : JValue → Bool) :
    Bool :=
  match JValue.findField fields k with
  | none => true
  | some (.jarr l) => l.all itemOk
  | some _ => false

/-- Draft-7 semantics of a `required` property constrained to
`{"type": "array", "items": ...}`. -/
def reqArrField (fields : List (String × JValue)) (k : String) (itemOk : JValue → Bool) :
    Bool :=
  match JValue.findField fields k with
  | some (.jarr l) => l.all itemOk
  | _ => false

/-- Parameter-item subschema of `GTM_INPUT_SCHEMA` (schema.py 26-34):
an object with `key`, `type`, `value` all required strings. -/
def param_entry_ok (p : JValue) : Bool :=
  match p with
  | .jobj fs => strField fs "key" && strField fs "type" && strField fs "value"
  | _ => false

/-- Variable-item subschema (schema.py 19-38): required string `name`
and `type`; optional `parameter` array of parameter triples. -/
def variable_entry_ok (v : JValue) : Bool :=
  match v with
  | .jobj fs =>
    strField fs "name" && strField fs "type" &&
      optArrField fs "parameter" param_entry_ok
  | _ => false

/-- Trigger-item subschema (schema.py 42-52): required string `name`
and `type`; the three optional filter fields must be arrays. -/
def trigger_entry_ok (t : JValue) : Bool :=
  match t with
  | .jobj fs =>
    strField fs "name" && strField fs "type" &&
      optArrField fs "filter" (fun _ => true) &&
      optArrField fs "customEventFilter" (fun _ => true) &&
      optArrField fs "autoEventFilter" (fun _ => true)
  | _ => false

/-- Tag-item subschema (schema.py 56-72): required string `name` and
`type`; optional `parameter` array (items unconstrained); optional
`firingTriggerId`/`blockingTriggerId` arrays of strings. -/
def tag_entry_ok (t : JValue) : Bool :=
  match t with
  | .jobj fs =>
    strField fs "name" && strField fs "type" &&
      optArrField fs "parameter" (fun _ => true) &&
      optArrField fs "firingTriggerId" isStrVal &&
      optArrField fs "blockingTriggerId" isStrVal
  | _ => false

/-- Draft-7 validity of a raw document against `GTM_INPUT_SCHEMA`
(schema.py 13-76): a JSON object whose required `variables`, `triggers`
and `tags` fields are arrays of valid items. -/
def structural_ok (data : JValue) : Bool :=
  match data with
  | .jobj fs =>
    reqArrField fs "variables" variable_entry_ok &&
      reqArrField fs "triggers" trigger_entry_ok &&
      reqArrField fs "tags" tag_entry_ok
  | _ => false

/-- `validate_input_data` (schema.py 79-100): `jsonschema.validate`
against `GTM_INPUT_SCHEMA`, re-raised as an error on the first
violation.  The carried message is the library's rendering of the
violation; the embedding keeps only the accept/reject outcome, which is
all downstream control flow inspects. -/
def validate_input_data (data : JValue) : Except String Unit :=
  if structural_ok data then .ok () else .error "Input data validation failed"

/-- The invalid-firing-trigger message of schema.py 125. -/
def firingRefMsg (tagName triggerName : String) : String :=
  "Tag \x27" ++ tagName ++ "\x27 references non-existent firing trigger \x27"
    ++ triggerName ++ "\x27"

/-- The invalid-blocking-trigger message of schema.py 130. -/
def blockingRefMsg (tagName triggerName : String) : String :=
  "Tag \x27" ++ tagName ++ "\x27 references non-existent blocking trigger \x27"
    ++ triggerName ++ "\x27"

/-- Python `sep.join(parts)`. -/
def pyJoin (sep : String) : List String → String
  | [] => ""
  | [a] => a
  | a :: rest => a ++ sep ++ pyJoin sep rest

/-- The batched error message of schema.py 133. -/
def refErrorMsg (invalid_refs : List String) : String :=
  "Invalid trigger references found:\n  - " ++ pyJoin "\n  - " invalid_refs

/-- `validate_trigger_references` (schema.py 103-138) on the raw
document: collect the trigger names, accumulate one message per
dangling firing/blocking reference across all tags, and fail with the
joined message when any were found.  (`tag['name']`/`trigger['name']`
subscripts are modelled by defaulting lookup; the only call site,
`validate_all`, runs after structural validation, which guarantees the
keys are present strings.) -/
def validate_trigger_references_raw (data : JValue) : Except String Unit :=
  let trigger_names := (data.jget "triggers" (.jarr [])).items.map (fun t => t.jget0 "name")
  let invalid_refs := (data.jget "tags" (.jarr [])).items.flatMap (fun tag =>
    ((tag.jget "firingTriggerId" (.jarr [])).items.filterMap (fun n =>
      if n ∈ trigger_names then none
      else some (firingRefMsg (tag.jget0 "name").pyStr n.pyStr)))
    ++ ((tag.jget "blockingTriggerId" (.jarr [])).items.filterMap (fun n =>
      if n ∈ trigger_names then none
      else some (blockingRefMsg (tag.jget0 "name").pyStr n.pyStr))))
  if invalid_refs.isEmpty then .ok () else .error (refErrorMsg invalid_refs)

/-- `validate_all` (schema.py 141-153): the structural pass, then the
referential pass; the first failure propagates. -/
def validate_all_raw (data : JValue) : Except String Unit :=
  match validate_input_data data with
  | .error e => .error e
  | .ok _ => validate_trigger_references_raw data

/-! ## The canonical document (typed view)

A structurally validated raw document is exactly described by the
following record types: `name`/`type` are present strings, parameter
triples are string triples, trigger references are string lists, and
the remaining fields are optional.  The validator's referential pass
and the orchestrator are stated over this typed view. -/

/-- A canonical trigger entry.  The three filter fields are opaque
arrays passed through verbatim (spec §3). -/
structure TriggerSpec where
  name : String
  type : String
  filter : Option (List JValue)
  customEventFilter : Option (List JValue)
  autoEventFilter : Option (List JValue)
deriving DecidableEq

/-- A canonical tag entry.  `parameter` is an opaque array (the schema
does not constrain tag parameter items); the trigger-reference fields
hold trigger *names*. -/
structure TagSpec where
  name : String
  type : String
  parameter : Option (List JValue)
  firingTriggerId : Option (List String)
  blockingTriggerId : Option (List String)
deriving DecidableEq

/-- The canonical document (spec §3).  The `vars` field models the
`variables` key (`variables` is a reserved word in Lean). -/
structure Document where
  vars : List VariableSpec
  triggers : List TriggerSpec
  tags : List TagSpec
deriving DecidableEq

/-- The trigger-name collection of schema.py 117:
`{trigger['name'] for trigger in data.get('triggers', [])}` (membership
in the Python set is name equality). -/
def document_trigger_names (doc : Document) : List String :=
  doc.triggers.map (fun t => t.name)

/-- The accumulated dangling-reference messages of schema.py 120-130:
for every tag, one message per firing reference then per blocking
reference that is not a trigger name, across all tags in order. -/
def document_invalid_refs (doc : Document) : List String :=
  doc.tags.flatMap (fun tag =>
    ((tag.firingTriggerId.getD []).filterMap (fun n =>
      if n ∈ document_trigger_names doc then none
      else some (firingRefMsg tag.name n)))
    ++ ((tag.blockingTriggerId.getD []).filterMap (fun n =>
      if n ∈ document_trigger_names doc then none
      else some (blockingRefMsg tag.name n))))

/-- `validate_trigger_references` (schema.py 103-138) on the typed
canonical document. -/
def validate_trigger_references (doc : Document) : Except String Unit :=
  if document_invalid_refs doc = [] then .ok ()
  else .error (refErrorMsg (document_invalid_refs doc))

/-- Raw image of a canonical parameter triple. -/
def encodeParam (p : Param) : JValue :=
  .jobj [("key", .jstr p.key), ("type", .jstr p.type), ("value", .jstr p.value)]

/-- Raw image of a canonical variable entry. -/
def encodeVariable (v : VariableSpec) : JValue :=
  .jobj ([("name", .jstr v.name), ("type", .jstr v.type)]
    ++ (match v.parameter with
        | some ps => [("parameter", .jarr (ps.map encodeParam))]
        | none => []))

/-- Raw image of a canonical trigger entry. -/
def encodeTrigger (t : TriggerSpec) : JValue :=
  .jobj ([("name", .jstr t.name), ("type", .jstr t.type)]
    ++ (match t.filter with
        | some l => [("filter", .jarr l)]
        | none => [])
    ++ (match t.customEventFilter with
        | some l => [("customEventFilter", .jarr l)]
        | none => [])
    ++ (match t.autoEventFilter with
        | some l => [("autoEventFilter", .jarr l)]
        | none => []))

/-- Raw image of a canonical tag entry. -/
def encodeTag (t : TagSpec) : JValue :=
  .jobj ([("name", .jstr t.name), ("type", .jstr t.type)]
    ++ (match t.parameter with
        | some l => [("parameter", .jarr l)]
        | none => [])
    ++ (match t.firingTriggerId with
        | some l => [("firingTriggerId", .jarr (l.map .jstr))]
        | none => [])
    ++ (match t.blockingTriggerId with
        | some l => [("blockingTriggerId", .jarr (l.map .jstr))]
        | none => []))

/-- Raw image of a canonical document: the JSON value whose typed view
is `doc`. -/
def encodeDocument (doc : Document) : JValue :=
  .jobj [("variables", .jarr (doc.vars.map encodeVariable)),
         ("triggers", .jarr (doc.triggers.map encodeTrigger)),
         ("tags", .jarr (doc.tags.map encodeTag))]

/-! ## Tag submission (`src/gtm_client.py`, `GTMClient.create_tag`) -/

/-- The trigger-ID map (spec §3 TriggerIdMap): a Python dict from
trigger name to remote-assigned trigger ID, as an ordered association
list with unique keys. -/
def TriggerIdMap := List (String × String)
deriving DecidableEq

/-- Python dict assignment `m[k] = v`: update the value in place when
the key exists, append the binding otherwise. -/
def dictInsert : TriggerIdMap → String → String → TriggerIdMap
  | [], k, v => [(k, v)]
  | (k0, v0) :: rest, k, v =>
    if k0 = k then (k, v) :: rest else (k0, v0) :: dictInsert rest k v

/-- Python dict lookup `m[k]` / `k in m` on the trigger-ID map (keys
are unique, so first match is the binding). -/
def dictFind : TriggerIdMap → String → Option String
  | [], _ => none
  | (k0, v0) :: rest, k => if k0 = k then some v0 else dictFind rest k

/-- The per-key resolution loop of `create_tag` (gtm_client.py 363-368
and 374-379): a name found in the trigger-ID map contributes its
remote ID to the outgoing list; a name not found is skipped and
contributes its warning instead.  Returns the resolved IDs and the
names that were dropped, each in list order. -/
def resolveTriggerRefs (m : TriggerIdMap) : List String → List String × List String
  | [] => ([], [])
  | n :: rest =>
    match dictFind m n with
    | some tid => (tid :: (resolveTriggerRefs m rest).1, (resolveTriggerRefs m rest).2)
    | none => ((resolveTriggerRefs m rest).1, n :: (resolveTriggerRefs m rest).2)

/-- The request body `create_tag` submits to the remote service
(gtm_client.py 355-381): `name`, `type` and `parameter` always;
`firingTriggerId`/`blockingTriggerId` only under
`'firingTriggerId' in tag_data and trigger_id_map` (the dict is truthy
exactly when non-empty). -/
structure TagBody where
  name : String
  type : String
  parameter : List JValue
  firingTriggerId : Option (List String)
  blockingTriggerId : Option (List String)
deriving DecidableEq

/-- The dropped-name warning for a firing reference
(gtm_client.py 368). -/
def firingWarning (n : String) : String :=
  "Firing trigger \x27" ++ n ++ "\x27 not found in trigger map"

/-- The dropped-name warning for a blocking reference
(gtm_client.py 379). -/
def blockingWarning (n : String) : String :=
  "Blocking trigger \x27" ++ n ++ "\x27 not found in trigger map"

/-- Python truthiness of the optional `trigger_id_map` argument: a
present, non-empty dict. -/
def truthyMap : Option TriggerIdMap → Option TriggerIdMap
  | some m => if m.isEmpty then none else some m
  | none => none

/-- `GTMClient.create_tag` (gtm_client.py 333-393) up to the remote
call: the request body together with the warnings logged for dropped
references.  Each reference key is included in the body (as the
resolved list) exactly when the tag spec has the key and the map is
truthy; otherwise the key is omitted and no warning is logged. -/
def create_tag_request (tag : TagSpec) (trigger_id_map : Option TriggerIdMap) :
    TagBody × List String :=
  let base : TagBody :=
    { name := tag.name, type := tag.type, parameter := tag.parameter.getD [],
      firingTriggerId := none, blockingTriggerId := none }
  match tag.firingTriggerId, tag.blockingTriggerId, truthyMap trigger_id_map with
  | some fns, some bns, some m =>
    ({ base with firingTriggerId := some (resolveTriggerRefs m fns).1,
                 blockingTriggerId := some (resolveTriggerRefs m bns).1 },
     (resolveTriggerRefs m fns).2.map firingWarning
       ++ (resolveTriggerRefs m bns).2.map blockingWarning)
  | some fns, none, some m =>
    ({ base with firingTriggerId := some (resolveTriggerRefs m fns).1 },
     (resolveTriggerRefs m fns).2.map firingWarning)
  | none, some bns, some m =>
    ({ base with blockingTriggerId := some (resolveTriggerRefs m bns).1 },
     (resolveTriggerRefs m bns).2.map blockingWarning)
  | _, _, _ => (base, [])

/-! ## Resource orchestrator (`app.py`, `main`, steps 6-7) -/

/-- The run-status values `main` stores in `stats['status']`. -/
inductive Status where
  | Success
  | PartialSuccess
  | Failed
  | DryRunSuccess
  | Interrupted
deriving DecidableEq

/-- The creation accounting of `main` (app.py 88-98), restricted to
the fields the creation phases and the final classification touch
(the workspace and duration fields are bookkeeping for the summary). -/
structure Stats where
  variables_created : Nat
  triggers_created : Nat
  tags_created : Nat
  errors : List String
  status : Status
deriving DecidableEq

/-- `stats` as initialized at app.py 88-98. -/
def initStats : Stats :=
  { variables_created := 0, triggers_created := 0, tags_created := 0,
    errors := [], status := .Failed }

/-- Outcome oracle for the remote service: the result of the `i`-th
creation call of each kind (the protocol is strictly sequential and
attempts each item exactly once, so this captures every
remote-service behaviour).  A successful `create_trigger` returns the
remote-assigned `triggerId`; the response echoes the requested
resource, so its `name` is the requested name. -/
structure Remote where
  varResult : Nat → Except String Unit
  trigResult : Nat → Except String String
  tagResult : Nat → Except String Unit

/-- One remote call, recorded for the call trace. -/
inductive RemoteCall where
  | createVariable (name : String)
  | createTrigger (name : String)
  | createTag (body : TagBody)
deriving DecidableEq

/-- The per-item failure message of app.py 196/211/222:
`Failed to create <kind> '<name>': <cause>`. -/
def failMsg (kind name cause : String) : String :=
  "Failed to create " ++ kind ++ " \x27" ++ name ++ "\x27: " ++ cause

/-- The variable-creation loop (app.py 191-198), from call index `i`:
on success increment `variables_created`, on failure append the error
message and continue; every item is attempted. -/
def runVariables (r : Remote) (i : Nat) (vs : List VariableSpec) (s : Stats) :
    Stats × List RemoteCall :=
  match vs with
  | [] => (s, [])
  | v :: rest =>
    let s1 :=
      match r.varResult i with
      | .ok _ => { s with variables_created := s.variables_created + 1 }
      | .error c => { s with errors := s.errors ++ [failMsg "variable" v.name c] }
    let (s2, tr) := runVariables r (i + 1) rest s1
    (s2, .createVariable v.name :: tr)

/-- The trigger-creation loop (app.py 201-213), from call index `i`:
on success record `trigger_id_map[trigger['name']] = trigger['triggerId']`
and increment `triggers_created`; on failure append the error message
and continue. -/
def runTriggers (r : Remote) (i : Nat) (ts : List TriggerSpec) (s : Stats)
    (m : TriggerIdMap) : Stats × TriggerIdMap × List RemoteCall :=
  match ts with
  | [] => (s, m, [])
  | t :: rest =>
    let (s1, m1) :=
      match r.trigResult i with
      | .ok tid =>
        ({ s with triggers_created := s.triggers_created + 1 }, dictInsert m t.name tid)
      | .error c =>
        ({ s with errors := s.errors ++ [failMsg "trigger" t.name c] }, m)
    let (s2, m2, tr) := runTriggers r (i + 1) rest s1 m1
    (s2, m2, .createTrigger t.name :: tr)

/-- The tag-creation loop (app.py 217-224), from call index `i`: each
tag is submitted through `create_tag` with the trigger-ID map; on
success increment `tags_created`, on failure append the error message
and continue. -/
def runTags (r : Remote) (i : Nat) (ts : List TagSpec) (s : Stats) (m : TriggerIdMap) :
    Stats × List RemoteCall :=
  match ts with
  | [] => (s, [])
  | t :: rest =>
    let s1 :=
      match r.tagResult i with
      | .ok _ => { s with tags_created := s.tags_created + 1 }
      | .error c => { s with errors := s.errors ++ [failMsg "tag" t.name c] }
    let (s2, tr) := runTags r (i + 1) rest s1 m
    (s2, .createTag (create_tag_request t (some m)).1 :: tr)

/-- The final-status classification of app.py 229-238: `SUCCESS` when
`total_created == total_expected and not stats['errors']`, otherwise
`PARTIAL_SUCCESS` when `total_created > 0`, otherwise `FAILED`. -/
def finalStatus (doc : Document) (s : Stats) : Status :=
  let total_expected := doc.vars.length + doc.triggers.length + doc.tags.length
  let total_created := s.variables_created + s.triggers_created + s.tags_created
  if total_created = total_expected ∧ s.errors = [] then .Success
  else if total_created > 0 then .PartialSuccess
  else .Failed

/-- Steps 6-7 of `main` (app.py 186-238) on a validated canonical
document: create variables, then triggers (building the trigger-ID
map, started empty at app.py 202), then tags, then classify.  Returns
the final stats, the trigger-ID map (main's local `trigger_id_map`),
and the trace of remote creation calls in order. -/
def orchestrate (doc : Document) (r : Remote) : Stats × TriggerIdMap × List RemoteCall :=
  let (s1, tr1) := runVariables r 0 doc.vars initStats
  let (s2, m, tr2) := runTriggers r 0 doc.triggers s1 []
  let (s3, tr3) := runTags r 0 doc.tags s2 m
  ({ s3 with status := finalStatus doc s3 }, m, tr1 ++ tr2 ++ tr3)

/-- Steps 3-7 of `main` (app.py 127-238) on a canonical document:
validate the document's raw form structurally, then referentially;
a validation failure is caught by the fatal-error handler (app.py
265-275), which records the message and leaves status `FAILED`, and
the creation phases never run (empty call trace).  Otherwise the
orchestrator runs. -/
def run_pipeline (doc : Document) (r : Remote) : Stats × List RemoteCall :=
  match validate_input_data (encodeDocument doc) with
  | .error e => ({ initStats with errors := [e], status := .Failed }, [])
  | .ok _ =>
    match validate_trigger_references doc with
    | .error e => ({ initStats with errors := [e], status := .Failed }, [])
    | .ok _ =>
      let (s, _, tr) := orchestrate doc r
      (s, tr)

/-! ## Helper lemmas -/

theorem resolveTriggerRefs_fst (m : TriggerIdMap) (ns : List String) :
    (resolveTriggerRefs m ns).1 = ns.filterMap (fun n => dictFind m n) := by
  induction ns with
  | nil => rfl
  | cons n rest ih =>
    simp only [resolveTriggerRefs, List.filterMap_cons]
    cases h : dictFind m n <;> simp [h, ih]

theorem resolveTriggerRefs_snd (m : TriggerIdMap) (ns : List String) :
    (resolveTriggerRefs m ns).2 = ns.filter (fun n => (dictFind m n).isNone) := by
  induction ns with
  | nil => rfl
  | cons n rest ih =>
    simp only [resolveTriggerRefs, List.filter_cons]
    cases h : dictFind m n <;> simp [h, ih]

theorem create_tag_request_firing (tag : TagSpec) (tm : Option TriggerIdMap) :
    (create_tag_request tag tm).1.firingTriggerId =
      match tag.firingTriggerId, truthyMap tm with
      | some fns, some m => some (resolveTriggerRefs m fns).1
      | _, _ => none := by
  rcases hf : tag.firingTriggerId with _ | fns <;>
    rcases hb : tag.blockingTriggerId with _ | bns <;>
      rcases ht : truthyMap tm with _ | m <;>
        simp [create_tag_request, hf, hb, ht]

theorem create_tag_request_blocking (tag : TagSpec) (tm : Option TriggerIdMap) :
    (create_tag_request tag tm).1.blockingTriggerId =
      match tag.blockingTriggerId, truthyMap tm with
      | some bns, some m => some (resolveTriggerRefs m bns).1
      | _, _ => none := by
  rcases hf : tag.firingTriggerId with _ | fns <;>
    rcases hb : tag.blockingTriggerId with _ | bns <;>
      rcases ht : truthyMap tm with _ | m <;>
        simp [create_tag_request, hf, hb, ht]

theorem create_tag_request_warnings (tag : TagSpec) (tm : Option TriggerIdMap) :
    (create_tag_request tag tm).2 =
      (match tag.firingTriggerId, truthyMap tm with
       | some fns, some m => (resolveTriggerRefs m fns).2.map firingWarning
       | _, _ => [])
      ++ (match tag.blockingTriggerId, truthyMap tm with
          | some bns, some m => (resolveTriggerRefs m bns).2.map blockingWarning
          | _, _ => []) := by
  rcases hf : tag.firingTriggerId with _ | fns <;>
    rcases hb : tag.blockingTriggerId with _ | bns <;>
      rcases ht : truthyMap tm with _ | m <;>
        simp [create_tag_request, hf, hb, ht]

theorem truthyMap_some_of_ne_nil (m : TriggerIdMap) (hm : m ≠ []) :
    truthyMap (some m) = some m := by
  cases m with
  | nil => exact absurd rfl hm
  | cons a l => rfl

/-! ## Claim theorems -/

/-- C8.  A JSON input without a `containerVersion` key — in particular
every input already in the canonical `{variables, triggers, tags}`
shape — passes through `parse_json` normalization unchanged, and
normalization is idempotent on it. -/
theorem claim_C8 (fields : List (String × JValue))
    (h : (JValue.jobj fields).hasKey "containerVersion" = false) :
    normalize_json_data (.jobj fields) = .jobj fields ∧
    normalize_json_data (normalize_json_data (.jobj fields)) =
      normalize_json_data (.jobj fields) := by
  have h1 : normalize_json_data (.jobj fields) = .jobj fields := by
    simp [normalize_json_data, h]
  exact ⟨h1, by rw [h1, h1]⟩

theorem claim_C8_witness :
    normalize_json_data
        (.jobj [("variables", .jarr []), ("triggers", .jarr []), ("tags", .jarr [])]) =
      .jobj [("variables", .jarr []), ("triggers", .jarr []), ("tags", .jarr [])] ∧
    normalize_json_data (normalize_json_data
        (.jobj [("variables", .jarr []), ("triggers", .jarr []), ("tags", .jarr [])])) =
      normalize_json_data
        (.jobj [("variables", .jarr []), ("triggers", .jarr []), ("tags", .jarr [])]) :=
  claim_C8 [("variables", .jarr []), ("triggers", .jarr []), ("tags", .jarr [])] (by decide)

/-- C2.  Whatever trigger-ID map the trigger-creation phase produced,
any firing or blocking reference list `create_tag` actually sends is
exactly the order-preserving image of the tag's name list under the
map with unmapped names dropped, and every sent entry is a mapped
remote ID (never an unresolved raw name). -/
theorem claim_C2 (tag : TagSpec) (m : TriggerIdMap) (out : List String) :
    ((create_tag_request tag (some m)).1.firingTriggerId = some out →
       out = (tag.firingTriggerId.getD []).filterMap (fun n => dictFind m n) ∧
       ∀ x ∈ out, ∃ n, n ∈ tag.firingTriggerId.getD [] ∧ dictFind m n = some x) ∧
    ((create_tag_request tag (some m)).1.blockingTriggerId = some out →
       out = (tag.blockingTriggerId.getD []).filterMap (fun n => dictFind m n) ∧
       ∀ x ∈ out, ∃ n, n ∈ tag.blockingTriggerId.getD [] ∧ dictFind m n = some x) := by
  constructor
  · intro hout
    rw [create_tag_request_firing] at hout
    rcases hf : tag.firingTriggerId with _ | fns
    · simp [hf] at hout
    · rcases ht : truthyMap (some m) with _ | m2
      · simp [hf, ht] at hout
      · have hm2 : m2 = m := by
          unfold truthyMap at ht
          by_cases h : m.isEmpty <;> simp [h] at ht
          exact ht.symm
        subst hm2
        simp only [hf, ht] at hout
        rw [resolveTriggerRefs_fst] at hout
        cases hout
        refine ⟨by simp [hf], ?_⟩
        intro x hx
        rcases List.mem_filterMap.mp hx with ⟨n, hn, hdn⟩
        exact ⟨n, by simp [hf]; exact hn, hdn⟩
  · intro hout
    rw [create_tag_request_blocking] at hout
    rcases hb : tag.blockingTriggerId with _ | bns
    · simp [hb] at hout
    · rcases ht : truthyMap (some m) with _ | m2
      · simp [hb, ht] at hout
      · have hm2 : m2 = m := by
          unfold truthyMap at ht
          by_cases h : m.isEmpty <;> simp [h] at ht
          exact ht.symm
        subst hm2
        simp only [hb, ht] at hout
        rw [resolveTriggerRefs_fst] at hout
        cases hout
        refine ⟨by simp [hb], ?_⟩
        intro x hx
        rcases List.mem_filterMap.mp hx with ⟨n, hn, hdn⟩
        exact ⟨n, by simp [hb]; exact hn, hdn⟩

theorem claim_C2_witness :
    (["5"] : List String) =
      ((TagSpec.mk "T" "html" none (some ["A", "B"]) none).firingTriggerId.getD []).filterMap
        (fun n => dictFind [("B", "5")] n) ∧
    ∀ x ∈ (["5"] : List String), ∃ n,
      n ∈ (TagSpec.mk "T" "html" none (some ["A", "B"]) none).firingTriggerId.getD [] ∧
      dictFind [("B", "5")] n = some x :=
  (claim_C2 (TagSpec.mk "T" "html" none (some ["A", "B"]) none) [("B", "5")] ["5"]).1 (by rfl)

/-- C9.  With an absent or empty trigger-ID map, `create_tag` omits
the `firingTriggerId`/`blockingTriggerId` keys from the request body
entirely (no empty list, no warnings); with a non-empty map it always
includes the (possibly empty) resolved list for each key present in
the tag spec. -/
theorem claim_C9 (tag : TagSpec) :
    ((create_tag_request tag none).1.firingTriggerId = none ∧
     (create_tag_request tag none).1.blockingTriggerId = none ∧
     (create_tag_request tag none).2 = []) ∧
    ((create_tag_request tag (some [])).1.firingTriggerId = none ∧
     (create_tag_request tag (some [])).1.blockingTriggerId = none ∧
     (create_tag_request tag (some [])).2 = []) ∧
    (∀ (m : TriggerIdMap) (fns : List String), m ≠ [] →
       tag.firingTriggerId = some fns →
       (create_tag_request tag (some m)).1.firingTriggerId =
         some (fns.filterMap (fun n => dictFind m n))) ∧
    (∀ (m : TriggerIdMap) (bns : List String), m ≠ [] →
       tag.blockingTriggerId = some bns →
       (create_tag_request tag (some m)).1.blockingTriggerId =
         some (bns.filterMap (fun n => dictFind m n))) := by
  have htN : truthyMap none = none := rfl
  have htE : truthyMap (some []) = none := rfl
  refine ⟨?_, ?_, ?_, ?_⟩
  · rw [create_tag_request_firing, create_tag_request_blocking,
        create_tag_request_warnings]
    rcases tag.firingTriggerId with _ | fns <;>
      rcases tag.blockingTriggerId with _ | bns <;> simp [htN]
  · rw [create_tag_request_firing, create_tag_request_blocking,
        create_tag_request_warnings]
    rcases tag.firingTriggerId with _ | fns <;>
      rcases tag.blockingTriggerId with _ | bns <;> simp [htE]
  · intro m fns hm hf
    rw [create_tag_request_firing, truthyMap_some_of_ne_nil m hm, hf]
    exact congrArg some (resolveTriggerRefs_fst m fns)
  · intro m bns hm hb
    rw [create_tag_request_blocking, truthyMap_some_of_ne_nil m hm, hb]
    exact congrArg some (resolveTriggerRefs_fst m bns)

theorem claim_C9_witness :
    (create_tag_request (TagSpec.mk "T" "html" none (some ["A"]) none) none).1.firingTriggerId
        = none ∧
    (create_tag_request (TagSpec.mk "T" "html" none (some ["A"]) none) (some [])).2 = [] ∧
    (create_tag_request (TagSpec.mk "T" "html" none (some ["A"]) none)
        (some [("A", "1")])).1.firingTriggerId =
      some ((["A"] : List String).filterMap (fun n => dictFind [("A", "1")] n)) :=
  ⟨(claim_C9 (TagSpec.mk "T" "html" none (some ["A"]) none)).1.1,
   (claim_C9 (TagSpec.mk "T" "html" none (some ["A"]) none)).2.1.2.2,
   (claim_C9 (TagSpec.mk "T" "html" none (some ["A"]) none)).2.2.1 [("A", "1")] ["A"]
     (List.cons_ne_nil _ _) rfl⟩

theorem pyDictFind_eq_none (m : List (JValue × JValue)) (k : JValue)
    (h : ∀ p ∈ m, p.1 ≠ k) : pyDictFind m k = none := by
  induction m with
  | nil => rfl
  | cons p rest ih =>
    obtain ⟨k0, v0⟩ := p
    simp only [pyDictFind]
    rw [ih (fun q hq => h q (List.mem_cons_of_mem _ hq))]
    simp [h (k0, v0) (List.mem_cons_self _ _)]

theorem pyDictFind_unique (triggers : List JValue) (t tid : JValue)
    (ht : t ∈ triggers) (hkey : t.jget0 "triggerId" = tid)
    (huniq : ∀ t2 ∈ triggers, t2.jget0 "triggerId" = tid → t2 = t) :
    pyDictFind (triggers.map (fun t0 => (t0.jget0 "triggerId", t0.jget0 "name"))) tid =
      some (t.jget0 "name") := by
  induction triggers with
  | nil => cases ht
  | cons t0 rest ih =>
    simp only [List.map_cons, pyDictFind]
    by_cases hmem : t ∈ rest
    · rw [ih hmem (fun t2 h2 he => huniq t2 (List.mem_cons_of_mem _ h2) he)]
    · have ht0 : t = t0 := by
        rcases List.mem_cons.mp ht with h | h
        · exact h
        · exact absurd h hmem
      subst ht0
      have hnone :
          pyDictFind (rest.map (fun t0 => (t0.jget0 "triggerId", t0.jget0 "name"))) tid
            = none := by
        apply pyDictFind_eq_none
        intro p hp hk
        rcases List.mem_map.mp hp with ⟨t2, ht2, hpe⟩
        have hk2 : t2.jget0 "triggerId" = tid := by rw [← hk, ← hpe]
        exact hmem (huniq t2 (List.mem_cons_of_mem _ ht2) hk2 ▸ ht2)
      rw [hnone]
      simp [hkey]

/-- C5.  In export-form conversion, a trigger-reference entry with a
unique matching trigger (by `triggerId`) is rewritten to that
trigger's name; an entry with no matching trigger passes through
unchanged (positionally, with no error). -/
theorem claim_C5 (ids triggers : List JValue) (i : Nat) (tid : JValue)
    (hid : ids[i]? = some tid) :
    ((∀ t ∈ triggers, t.jget0 "triggerId" ≠ tid) →
       (map_trigger_ids_to_names ids triggers)[i]? = some tid) ∧
    (∀ t ∈ triggers, t.jget0 "triggerId" = tid →
       (∀ t2 ∈ triggers, t2.jget0 "triggerId" = tid → t2 = t) →
       (map_trigger_ids_to_names ids triggers)[i]? = some (t.jget0 "name")) := by
  have hmap : (map_trigger_ids_to_names ids triggers)[i]? =
      some ((pyDictFind
        (triggers.map fun t0 => (t0.jget0 "triggerId", t0.jget0 "name")) tid).getD tid) := by
    unfold map_trigger_ids_to_names
    rw [List.getElem?_map, hid]
    rfl
  constructor
  · intro hnone
    have hn : pyDictFind
        (triggers.map fun t0 => (t0.jget0 "triggerId", t0.jget0 "name")) tid = none := by
      apply pyDictFind_eq_none
      intro p hp
      rcases List.mem_map.mp hp with ⟨t2, ht2, hpe⟩
      rw [← hpe]
      exact hnone t2 ht2
    rw [hmap, hn]
    rfl
  · intro t ht hkey huniq
    rw [hmap, pyDictFind_unique triggers t tid ht hkey huniq]
    rfl

theorem claim_C5_witness :
    (map_trigger_ids_to_names [.jstr "12", .jstr "99"]
        [.jobj [("triggerId", .jstr "12"), ("name", .jstr "T1")]])[0]? =
      some (.jstr "T1") ∧
    (map_trigger_ids_to_names [.jstr "12", .jstr "99"]
        [.jobj [("triggerId", .jstr "12"), ("name", .jstr "T1")]])[1]? =
      some (.jstr "99") :=
  ⟨(claim_C5 [.jstr "12", .jstr "99"]
      [.jobj [("triggerId", .jstr "12"), ("name", .jstr "T1")]] 0 (.jstr "12") rfl).2
      (.jobj [("triggerId", .jstr "12"), ("name", .jstr "T1")])
      (List.mem_singleton.mpr rfl) rfl
      (fun t2 ht2 _ => List.mem_singleton.mp ht2),
   (claim_C5 [.jstr "12", .jstr "99"]
      [.jobj [("triggerId", .jstr "12"), ("name", .jstr "T1")]] 1 (.jstr "99") rfl).1
      (by decide)⟩

/-- C7.  Tabular `parameter_key`/`parameter_value` cells are split on
`|` and paired by position: position `i` pairs the `i`-th key with the
`i`-th value, a position beyond the end of the value list gets the
empty string, and each key and value is trimmed of surrounding
whitespace; in particular `"a|b"`/`"1"` yields
`[{key: "a", value: "1"}, {key: "b", value: ""}]`. -/
theorem claim_C7 (row : Row) (nm kc vc : String)
    (hname : row.cell "name" = some nm)
    (hkc : row.cell "parameter_key" = some kc)
    (hvc : row.find "parameter_value" = some (some vc))
    (hnoval : row.cell "value" = none) :
    (parse_variable_row row).map (fun v => v.parameter) =
      some (some (split_kv_params kc vc)) ∧
    (split_kv_params kc vc).length = (pySplit '|' kc).length ∧
    (∀ i : Nat, (split_kv_params kc vc)[i]? =
      ((pySplit '|' kc)[i]?).map (fun k =>
        { key := pyStrip k, type := "template",
          value := pyStrip (((pySplit '|' vc)[i]?).getD "") })) ∧
    split_kv_params "a|b" "1" =
      [{ key := "a", type := "template", value := "1" },
       { key := "b", type := "template", value := "" }] := by
  refine ⟨?_, ?_, ?_, ?_⟩
  · simp [parse_variable_row, hname, hkc, hnoval, Row.cellD, hvc]
  · simp [split_kv_params, List.length_map, List.enum_length]
  · intro i
    simp only [split_kv_params, List.getElem?_map, List.getElem?_enum, Option.map_map]
    cases h : (pySplit '|' kc)[i]? <;>
      simp [h, List.getD_eq_getElem?_getD, Function.comp]
  · rfl

theorem claim_C7_witness :
    (parse_variable_row (Row.mk [("name", some "V"), ("parameter_key", some "a|b"),
        ("parameter_value", some "1")])).map (fun v => v.parameter) =
      some (some (split_kv_params "a|b" "1")) ∧
    split_kv_params "a|b" "1" =
      [{ key := "a", type := "template", value := "1" },
       { key := "b", type := "template", value := "" }] :=
  ⟨(claim_C7 (Row.mk [("name", some "V"), ("parameter_key", some "a|b"),
        ("parameter_value", some "1")]) "V" "a|b" "1" rfl rfl rfl rfl).1,
   (claim_C7 (Row.mk [("name", some "V"), ("parameter_key", some "a|b"),
        ("parameter_value", some "1")]) "V" "a|b" "1" rfl rfl rfl rfl).2.2.2⟩

/-- `needle` occurs as a contiguous substring of `hay`. -/
def isSubstring (needle hay : String) : Prop :=
  ∃ s t : List Char, s ++ needle.data ++ t = hay.data

theorem isSubstring_append_left (x h j : String) (hs : isSubstring x j) :
    isSubstring x (h ++ j) := by
  rcases hs with ⟨s, t, hst⟩
  exact ⟨h.data ++ s, t, by rw [String.data_append, ← hst]; simp⟩

theorem isSubstring_pyJoin (sep : String) (l : List String) (x : String) (hx : x ∈ l) :
    isSubstring x (pyJoin sep l) := by
  induction l with
  | nil => cases hx
  | cons a rest ih =>
    cases rest with
    | nil =>
      rcases List.mem_singleton.mp hx with rfl
      exact ⟨[], [], by simp [pyJoin]⟩
    | cons b rest2 =>
      rcases List.mem_cons.mp hx with rfl | hmem
      · exact ⟨[], sep.data ++ (pyJoin sep (b :: rest2)).data,
          by simp [pyJoin, String.data_append]⟩
      · have := isSubstring_append_left x (a ++ sep) (pyJoin sep (b :: rest2)) (ih hmem)
        rcases this with ⟨s, t, hst⟩
        exact ⟨s, t, by rw [hst]; simp [pyJoin, String.data_append]⟩

theorem firing_msg_mem (doc : Document) (tag : TagSpec) (n : String)
    (htag : tag ∈ doc.tags) (hn : n ∈ tag.firingTriggerId.getD [])
    (hmiss : n ∉ document_trigger_names doc) :
    firingRefMsg tag.name n ∈ document_invalid_refs doc := by
  unfold document_invalid_refs
  apply List.mem_flatMap.mpr
  refine ⟨tag, htag, ?_⟩
  apply List.mem_append.mpr
  left
  apply List.mem_filterMap.mpr
  exact ⟨n, hn, by simp [hmiss]⟩

theorem blocking_msg_mem (doc : Document) (tag : TagSpec) (n : String)
    (htag : tag ∈ doc.tags) (hn : n ∈ tag.blockingTriggerId.getD [])
    (hmiss : n ∉ document_trigger_names doc) :
    blockingRefMsg tag.name n ∈ document_invalid_refs doc := by
  unfold document_invalid_refs
  apply List.mem_flatMap.mpr
  refine ⟨tag, htag, ?_⟩
  apply List.mem_append.mpr
  right
  apply List.mem_filterMap.mpr
  exact ⟨n, hn, by simp [hmiss]⟩

theorem invalid_refs_ne_nil_iff (doc : Document) :
    document_invalid_refs doc ≠ [] ↔
      ∃ tag ∈ doc.tags, ∃ n,
        (n ∈ tag.firingTriggerId.getD [] ∨ n ∈ tag.blockingTriggerId.getD []) ∧
        n ∉ document_trigger_names doc := by
  constructor
  · intro hne
    rcases List.exists_mem_of_ne_nil _ hne with ⟨x, hx⟩
    rcases List.mem_flatMap.mp hx with ⟨tag, htag, hxin⟩
    rcases List.mem_append.mp hxin with hf | hb
    · rcases List.mem_filterMap.mp hf with ⟨n, hn, hsome⟩
      by_cases hmem : n ∈ document_trigger_names doc
      · simp [hmem] at hsome
      · exact ⟨tag, htag, n, Or.inl hn, hmem⟩
    · rcases List.mem_filterMap.mp hb with ⟨n, hn, hsome⟩
      by_cases hmem : n ∈ document_trigger_names doc
      · simp [hmem] at hsome
      · exact ⟨tag, htag, n, Or.inr hn, hmem⟩
  · rintro ⟨tag, htag, n, hor, hmiss⟩ hnil
    rcases hor with hf | hb
    · have hm := firing_msg_mem doc tag n htag hf hmiss
      rw [hnil] at hm
      cases hm
    · have hm := blocking_msg_mem doc tag n htag hb hmiss
      rw [hnil] at hm
      cases hm

/-- C3.  The referential validator fails exactly when some tag
references a trigger name absent from the document's trigger list;
on failure, the single error message contains the per-reference entry
(naming the offending tag and the missing name) for every dangling
firing and blocking reference across all tags; and when it fails no
remote creation call is ever made. -/
theorem claim_C3 (doc : Document) :
    ((∃ e, validate_trigger_references doc = .error e) ↔
       ∃ tag ∈ doc.tags, ∃ n,
         (n ∈ tag.firingTriggerId.getD [] ∨ n ∈ tag.blockingTriggerId.getD []) ∧
         n ∉ document_trigger_names doc) ∧
    (∀ e, validate_trigger_references doc = .error e →
       (∀ tag ∈ doc.tags, ∀ n ∈ tag.firingTriggerId.getD [],
          n ∉ document_trigger_names doc → isSubstring (firingRefMsg tag.name n) e) ∧
       (∀ tag ∈ doc.tags, ∀ n ∈ tag.blockingTriggerId.getD [],
          n ∉ document_trigger_names doc → isSubstring (blockingRefMsg tag.name n) e)) ∧
    (∀ (r : Remote) (e : String), validate_trigger_references doc = .error e →
       (run_pipeline doc r).2 = []) := by
  refine ⟨?_, ?_, ?_⟩
  · constructor
    · rintro ⟨e, he⟩
      by_cases hnil : document_invalid_refs doc = []
      · simp [validate_trigger_references, hnil] at he
      · exact (invalid_refs_ne_nil_iff doc).mp hnil
    · intro hd
      have hne := (invalid_refs_ne_nil_iff doc).mpr hd
      exact ⟨refErrorMsg (document_invalid_refs doc),
        by simp [validate_trigger_references, hne]⟩
  · intro e he
    by_cases hnil : document_invalid_refs doc = []
    · simp [validate_trigger_references, hnil] at he
    · have hee : e = refErrorMsg (document_invalid_refs doc) := by
        simp [validate_trigger_references, hnil] at he
        exact he.symm
      subst hee
      constructor
      · intro tag htag n hn hmiss
        unfold refErrorMsg
        exact isSubstring_append_left _ _ _
          (isSubstring_pyJoin _ _ _ (firing_msg_mem doc tag n htag hn hmiss))
      · intro tag htag n hn hmiss
        unfold refErrorMsg
        exact isSubstring_append_left _ _ _
          (isSubstring_pyJoin _ _ _ (blocking_msg_mem doc tag n htag hn hmiss))
  · intro r e he
    cases hvi : validate_input_data (encodeDocument doc) with
    | error e2 => simp [run_pipeline, hvi]
    | ok u => simp [run_pipeline, hvi, he]

theorem claim_C3_witness :
    isSubstring (firingRefMsg "T" "Missing")
      (refErrorMsg [firingRefMsg "T" "Missing"]) ∧
    (run_pipeline (Document.mk [] [] [TagSpec.mk "T" "html" none (some ["Missing"]) none])
       (Remote.mk (fun _ => .ok ()) (fun _ => .ok "1") (fun _ => .ok ()))).2 = [] := by
  have h := claim_C3 (Document.mk [] [] [TagSpec.mk "T" "html" none (some ["Missing"]) none])
  have he : validate_trigger_references
      (Document.mk [] [] [TagSpec.mk "T" "html" none (some ["Missing"]) none]) =
        .error (refErrorMsg [firingRefMsg "T" "Missing"]) := rfl
  exact ⟨(h.2.1 _ he).1 _ (List.mem_singleton.mpr rfl) "Missing" (by decide) (by decide),
         h.2.2 _ _ he⟩

theorem reqArrField_false_of_bad (fs : List (String × JValue)) (k : String)
    (itemOk : JValue → Bool) (l : List JValue) (x : JValue)
    (hf : JValue.findField fs k = some (.jarr l)) (hx : x ∈ l)
    (hbad : itemOk x = false) : reqArrField fs k itemOk = false := by
  unfold reqArrField
  rw [hf]
  cases hall : l.all itemOk
  · exact hall
  · rw [List.all_eq_true] at hall
    rw [hall x hx] at hbad
    cases hbad

theorem validate_error_of_not_structural (d : JValue) (h : structural_ok d = false) :
    validate_input_data d = .error "Input data validation failed" := by
  simp [validate_input_data, h]

theorem structural_false_of_bad_variables (fs : List (String × JValue))
    (vs : List JValue) (v : JValue) (hf : JValue.findField fs "variables" = some (.jarr vs))
    (hv : v ∈ vs) (hbad : variable_entry_ok v = false) :
    structural_ok (.jobj fs) = false := by
  show (reqArrField fs "variables" variable_entry_ok &&
    reqArrField fs "triggers" trigger_entry_ok &&
    reqArrField fs "tags" tag_entry_ok) = false
  rw [reqArrField_false_of_bad fs "variables" variable_entry_ok vs v hf hv hbad]
  rfl

theorem structural_false_of_bad_triggers (fs : List (String × JValue))
    (ts : List JValue) (t : JValue) (hf : JValue.findField fs "triggers" = some (.jarr ts))
    (ht : t ∈ ts) (hbad : trigger_entry_ok t = false) :
    structural_ok (.jobj fs) = false := by
  show (reqArrField fs "variables" variable_entry_ok &&
    reqArrField fs "triggers" trigger_entry_ok &&
    reqArrField fs "tags" tag_entry_ok) = false
  rw [reqArrField_false_of_bad fs "triggers" trigger_entry_ok ts t hf ht hbad]
  simp

theorem structural_false_of_bad_tags (fs : List (String × JValue))
    (ts : List JValue) (t : JValue) (hf : JValue.findField fs "tags" = some (.jarr ts))
    (ht : t ∈ ts) (hbad : tag_entry_ok t = false) :
    structural_ok (.jobj fs) = false := by
  show (reqArrField fs "variables" variable_entry_ok &&
    reqArrField fs "triggers" trigger_entry_ok &&
    reqArrField fs "tags" tag_entry_ok) = false
  rw [reqArrField_false_of_bad fs "tags" tag_entry_ok ts t hf ht hbad]
  simp

/-- C4 (amended).  The structural pass rejects any variable, trigger,
or tag entry whose `name` or `type` is missing or not a string (the
empty string is a string, hence accepted), rejects any *variable*
parameter entry lacking `key`/`type`/`value` strings (tag parameter
items are not constrained), and runs before the referential pass: its
failure short-circuits `validate_all`. -/
theorem claim_C4_amended (fs : List (String × JValue)) :
    (∀ (vs : List JValue) (v : JValue) (vfs : List (String × JValue)),
       JValue.findField fs "variables" = some (.jarr vs) → v ∈ vs →
       v = .jobj vfs →
       (strField vfs "name" = false ∨ strField vfs "type" = false) →
       ∃ e, validate_input_data (.jobj fs) = .error e) ∧
    (∀ (vs : List JValue) (v : JValue) (vfs : List (String × JValue))
       (ps : List JValue) (p : JValue),
       JValue.findField fs "variables" = some (.jarr vs) → v ∈ vs →
       v = .jobj vfs → JValue.findField vfs "parameter" = some (.jarr ps) →
       p ∈ ps → param_entry_ok p = false →
       ∃ e, validate_input_data (.jobj fs) = .error e) ∧
    (∀ (ts : List JValue) (t : JValue) (tfs : List (String × JValue)),
       JValue.findField fs "triggers" = some (.jarr ts) → t ∈ ts →
       t = .jobj tfs →
       (strField tfs "name" = false ∨ strField tfs "type" = false) →
       ∃ e, validate_input_data (.jobj fs) = .error e) ∧
    (∀ (ts : List JValue) (t : JValue) (tfs : List (String × JValue)),
       JValue.findField fs "tags" = some (.jarr ts) → t ∈ ts →
       t = .jobj tfs →
       (strField tfs "name" = false ∨ strField tfs "type" = false) →
       ∃ e, validate_input_data (.jobj fs) = .error e) ∧
    (∀ e, validate_input_data (.jobj fs) = .error e →
       validate_all_raw (.jobj fs) = .error e) := by
  refine ⟨?_, ?_, ?_, ?_, ?_⟩
  · intro vs v vfs hf hv hobj hbad
    refine ⟨"Input data validation failed", validate_error_of_not_structural _ ?_⟩
    apply structural_false_of_bad_variables fs vs v hf hv
    subst hobj
    rcases hbad with h | h <;> simp [variable_entry_ok, h]
  · intro vs v vfs ps p hf hv hobj hp hpin hbad
    refine ⟨"Input data validation failed", validate_error_of_not_structural _ ?_⟩
    apply structural_false_of_bad_variables fs vs v hf hv
    subst hobj
    have hopt : optArrField vfs "parameter" param_entry_ok = false := by
      unfold optArrField
      rw [hp]
      cases hall : ps.all param_entry_ok
      · exact hall
      · rw [List.all_eq_true] at hall
        rw [hall p hpin] at hbad
        cases hbad
    simp [variable_entry_ok, hopt]
  · intro ts t tfs hf ht hobj hbad
    refine ⟨"Input data validation failed", validate_error_of_not_structural _ ?_⟩
    apply structural_false_of_bad_triggers fs ts t hf ht
    subst hobj
    rcases hbad with h | h <;> simp [trigger_entry_ok, h]
  · intro ts t tfs hf ht hobj hbad
    refine ⟨"Input data validation failed", validate_error_of_not_structural _ ?_⟩
    apply structural_false_of_bad_tags fs ts t hf ht
    subst hobj
    rcases hbad with h | h <;> simp [tag_entry_ok, h]
  · intro e he
    simp [validate_all_raw, he]

/-- C4, counterexample to the claim as stated: a variable whose `name`
is the *empty string* and a tag parameter entry lacking all of
`key`/`type`/`value` both pass the structural check. -/
theorem claim_C4_counterexample :
    validate_input_data (.jobj
      [("variables", .jarr [.jobj [("name", .jstr ""), ("type", .jstr "v")]]),
       ("triggers", .jarr []),
       ("tags", .jarr [.jobj [("name", .jstr "T"), ("type", .jstr "html"),
                              ("parameter", .jarr [.jobj []])]])]) = .ok () := rfl

theorem claim_C4_amended_witness :
    (∃ e, validate_input_data (.jobj
       [("variables", .jarr [.jobj [("type", .jstr "v")]]),
        ("triggers", .jarr []), ("tags", .jarr [])]) = .error e) ∧
    validate_all_raw (.jobj
       [("variables", .jarr [.jobj [("type", .jstr "v")]]),
        ("triggers", .jarr []), ("tags", .jarr [])]) =
      .error "Input data validation failed" := by
  have h := claim_C4_amended
    [("variables", .jarr [.jobj [("type", .jstr "v")]]),
     ("triggers", .jarr []), ("tags", .jarr [])]
  exact ⟨h.1 [.jobj [("type", .jstr "v")]] (.jobj [("type", .jstr "v")])
           [("type", .jstr "v")] rfl (List.mem_singleton.mpr rfl) rfl (Or.inl rfl),
         h.2.2.2.2 "Input data validation failed" rfl⟩

/-- Did the remote call succeed? -/
def isOkE {α : Type} : Except String α → Bool
  | .ok _ => true
  | .error _ => false

/-- Number of successful calls a creation phase makes over `xs`,
starting at call index `i`. -/
def phaseOkCount {α β : Type} (res : Nat → Except String β) (i : Nat) (xs : List α) :
    Nat :=
  (xs.enumFrom i).countP (fun p => isOkE (res p.1))

/-- The error messages a creation phase records over `xs`, starting at
call index `i`: one `failMsg` per failing item, in document order. -/
def phaseErrors {α β : Type} (kind : String) (nameOf : α → String)
    (res : Nat → Except String β) (i : Nat) (xs : List α) : List String :=
  (xs.enumFrom i).filterMap (fun p =>
    match res p.1 with
    | .ok _ => none
    | .error c => some (failMsg kind (nameOf p.2) c))

/-- The `(name, triggerId)` pairs of the successfully created triggers,
in document order. -/
def successfulTriggers (res : Nat → Except String String) (i : Nat)
    (ts : List TriggerSpec) : List (String × String) :=
  (ts.enumFrom i).filterMap (fun p =>
    match res p.1 with
    | .ok tid => some (p.2.name, tid)
    | .error _ => none)

/-- `create_trigger_id_map` (helpers.py 162-172): the dict
comprehension `{t['name']: t['triggerId'] for t in triggers}` over
created trigger objects, i.e. insertion in list order with overwrite
on duplicate names. -/
def create_trigger_id_map (triggers : List (String × String)) : TriggerIdMap :=
  triggers.foldl (fun m t => dictInsert m t.1 t.2) []

/-- The remote ID of the most recently created trigger bearing a
name: the last successful `(name, triggerId)` pair with that name. -/
def lastSuccessfulTriggerId (res : Nat → Except String String) (i : Nat)
    (ts : List TriggerSpec) (nm : String) : Option String :=
  ((successfulTriggers res i ts).reverse.find? (fun p => p.1 = nm)).map (fun p => p.2)

theorem phaseOkCount_nil {α β : Type} (res : Nat → Except String β) (i : Nat) :
    phaseOkCount (α := α) res i [] = 0 := rfl

theorem phaseOkCount_cons {α β : Type} (res : Nat → Except String β) (i : Nat)
    (x : α) (xs : List α) :
    phaseOkCount res i (x :: xs) =
      (if isOkE (res i) then 1 else 0) + phaseOkCount res (i + 1) xs := by
  simp [phaseOkCount, List.enumFrom, List.countP_cons, Nat.add_comm]

theorem phaseErrors_nil {α β : Type} (kind : String) (nameOf : α → String)
    (res : Nat → Except String β) (i : Nat) :
    phaseErrors kind nameOf res i [] = [] := rfl

theorem phaseErrors_cons {α β : Type} (kind : String) (nameOf : α → String)
    (res : Nat → Except String β) (i : Nat) (x : α) (xs : List α) :
    phaseErrors kind nameOf res i (x :: xs) =
      (match res i with
       | .ok _ => []
       | .error c => [failMsg kind (nameOf x) c]) ++ phaseErrors kind nameOf res (i + 1) xs := by
  cases h : res i <;> simp [phaseErrors, List.enumFrom, List.filterMap_cons, h]

theorem successfulTriggers_cons (res : Nat → Except String String) (i : Nat)
    (t : TriggerSpec) (ts : List TriggerSpec) :
    successfulTriggers res i (t :: ts) =
      (match res i with
       | .ok tid => [(t.name, tid)]
       | .error _ => []) ++ successfulTriggers res (i + 1) ts := by
  cases h : res i <;> simp [successfulTriggers, List.enumFrom, List.filterMap_cons, h]

theorem runVariables_eq (r : Remote) (vs : List VariableSpec) :
    ∀ (i : Nat) (s : Stats),
    runVariables r i vs s =
      ({ s with
          variables_created := s.variables_created + phaseOkCount r.varResult i vs,
          errors := s.errors ++ phaseErrors "variable" (fun v => v.name) r.varResult i vs },
       vs.map (fun v => RemoteCall.createVariable v.name)) := by
  induction vs with
  | nil => intro i s; simp [runVariables, phaseOkCount_nil, phaseErrors_nil]
  | cons v rest ih =>
    intro i s
    simp only [runVariables]
    cases hres : r.varResult i with
    | ok u =>
      rw [ih (i + 1)]
      simp [phaseOkCount_cons, phaseErrors_cons, hres, isOkE, Nat.add_assoc,
        List.append_assoc, List.map_cons]
    | error c =>
      rw [ih (i + 1)]
      simp [phaseOkCount_cons, phaseErrors_cons, hres, isOkE, Nat.add_assoc,
        List.append_assoc, List.map_cons]

theorem runTriggers_eq (r : Remote) (ts : List TriggerSpec) :
    ∀ (i : Nat) (s : Stats) (m : TriggerIdMap),
    runTriggers r i ts s m =
      ({ s with
          triggers_created := s.triggers_created + phaseOkCount r.trigResult i ts,
          errors := s.errors ++ phaseErrors "trigger" (fun t => t.name) r.trigResult i ts },
       (successfulTriggers r.trigResult i ts).foldl (fun m2 t => dictInsert m2 t.1 t.2) m,
       ts.map (fun t => RemoteCall.createTrigger t.name)) := by
  induction ts with
  | nil => intro i s m; simp [runTriggers, phaseOkCount_nil, phaseErrors_nil, successfulTriggers]
  | cons t rest ih =>
    intro i s m
    simp only [runTriggers]
    cases hres : r.trigResult i with
    | ok tid =>
      rw [ih (i + 1)]
      simp [phaseOkCount_cons, phaseErrors_cons, successfulTriggers_cons, hres, isOkE,
        Nat.add_assoc, List.append_assoc, List.map_cons]
    | error c =>
      rw [ih (i + 1)]
      simp [phaseOkCount_cons, phaseErrors_cons, successfulTriggers_cons, hres, isOkE,
        Nat.add_assoc, List.append_assoc, List.map_cons]

theorem runTags_eq (r : Remote) (ts : List TagSpec) (m : TriggerIdMap) :
    ∀ (i : Nat) (s : Stats),
    runTags r i ts s m =
      ({ s with
          tags_created := s.tags_created + phaseOkCount r.tagResult i ts,
          errors := s.errors ++ phaseErrors "tag" (fun t => t.name) r.tagResult i ts },
       ts.map (fun t => RemoteCall.createTag (create_tag_request t (some m)).1)) := by
  induction ts with
  | nil => intro i s; simp [runTags, phaseOkCount_nil, phaseErrors_nil]
  | cons t rest ih =>
    intro i s
    simp only [runTags]
    cases hres : r.tagResult i with
    | ok u =>
      rw [ih (i + 1)]
      simp [phaseOkCount_cons, phaseErrors_cons, hres, isOkE, Nat.add_assoc,
        List.append_assoc, List.map_cons]
    | error c =>
      rw [ih (i + 1)]
      simp [phaseOkCount_cons, phaseErrors_cons, hres, isOkE, Nat.add_assoc,
        List.append_assoc, List.map_cons]

/-- The creation accounting the orchestrator ends up with, before the
final classification writes the status field. -/
def orchestrateStats (doc : Document) (r : Remote) : Stats :=
  { variables_created := phaseOkCount r.varResult 0 doc.vars,
    triggers_created := phaseOkCount r.trigResult 0 doc.triggers,
    tags_created := phaseOkCount r.tagResult 0 doc.tags,
    errors := phaseErrors "variable" (fun v => v.name) r.varResult 0 doc.vars
      ++ phaseErrors "trigger" (fun t => t.name) r.trigResult 0 doc.triggers
      ++ phaseErrors "tag" (fun t => t.name) r.tagResult 0 doc.tags,
    status := .Failed }

theorem orchestrate_eq (doc : Document) (r : Remote) :
    orchestrate doc r =
      ({ orchestrateStats doc r with
          status := finalStatus doc (orchestrateStats doc r) },
       create_trigger_id_map (successfulTriggers r.trigResult 0 doc.triggers),
       doc.vars.map (fun v => RemoteCall.createVariable v.name)
         ++ doc.triggers.map (fun t => RemoteCall.createTrigger t.name)
         ++ doc.tags.map (fun t => RemoteCall.createTag
              (create_tag_request t
                (some (create_trigger_id_map
                  (successfulTriggers r.trigResult 0 doc.triggers)))).1)) := by
  unfold orchestrate
  simp only [runVariables_eq]
  simp only [runTriggers_eq]
  simp only [runTags_eq]
  simp only [initStats, orchestrateStats, create_trigger_id_map, finalStatus]
  simp [List.append_assoc]

theorem phaseErrors_length_add {α β : Type} (kind : String) (nameOf : α → String)
    (res : Nat → Except String β) (i : Nat) (xs : List α) :
    (phaseErrors kind nameOf res i xs).length + phaseOkCount res i xs = xs.length := by
  induction xs generalizing i with
  | nil => rfl
  | cons x rest ih =>
    have h2 := ih (i + 1)
    rw [phaseErrors_cons, phaseOkCount_cons]
    cases h : res i with
    | ok u =>
      simp only [h, isOkE, List.nil_append, if_true, List.length_cons]
      omega
    | error c =>
      simp only [h, isOkE, List.singleton_append, List.length_cons, if_false,
        Bool.false_eq_true, List.length_append]
      omega

theorem status_classify (cv ct cg lv lt lg : Nat) (eV eT eG : List String)
    (hv : eV.length + cv = lv) (ht : eT.length + ct = lt) (hg : eG.length + cg = lg) :
    ((if cv + ct + cg = lv + lt + lg ∧ eV ++ eT ++ eG = ([] : List String)
        then Status.Success
        else if 0 < cv + ct + cg then Status.PartialSuccess else Status.Failed) =
          Status.Success ↔
       cv + ct + cg = lv + lt + lg ∧ eV ++ eT ++ eG = []) ∧
    ((if cv + ct + cg = lv + lt + lg ∧ eV ++ eT ++ eG = ([] : List String)
        then Status.Success
        else if 0 < cv + ct + cg then Status.PartialSuccess else Status.Failed) =
          Status.PartialSuccess ↔
       0 < cv + ct + cg ∧ cv + ct + cg < lv + lt + lg) ∧
    ((if cv + ct + cg = lv + lt + lg ∧ eV ++ eT ++ eG = ([] : List String)
        then Status.Success
        else if 0 < cv + ct + cg then Status.PartialSuccess else Status.Failed) =
          Status.Failed ↔
       cv + ct + cg = 0 ∧ 0 < lv + lt + lg) := by
  have key : eV ++ eT ++ eG = ([] : List String) ↔ cv + ct + cg = lv + lt + lg := by
    constructor
    · intro h
      rw [List.append_eq_nil, List.append_eq_nil] at h
      obtain ⟨⟨h1, h2⟩, h3⟩ := h
      rw [h1] at hv
      rw [h2] at ht
      rw [h3] at hg
      simp only [List.length_nil] at hv ht hg
      omega
    · intro h
      have e1 : eV = [] := by
        rw [← List.length_eq_zero]
        omega
      have e2 : eT = [] := by
        rw [← List.length_eq_zero]
        omega
      have e3 : eG = [] := by
        rw [← List.length_eq_zero]
        omega
      rw [e1, e2, e3]
      rfl
  by_cases hc : cv + ct + cg = lv + lt + lg
  · have he : eV ++ eT ++ eG = ([] : List String) := key.mpr hc
    rw [if_pos ⟨hc, he⟩]
    refine ⟨by simp [hc, he], by simp; omega, by simp; omega⟩
  · have he : eV ++ eT ++ eG ≠ ([] : List String) := fun h => hc (key.mp h)
    rw [if_neg (fun h => hc h.1)]
    by_cases hpos : 0 < cv + ct + cg
    · rw [if_pos hpos]
      refine ⟨by simp [hc], by simp [hpos]; omega, by simp; omega⟩
    · rw [if_neg hpos]
      refine ⟨by simp [hc], by simp; omega, by simp; omega⟩

/-- C1 (amended).  The final run status is `SUCCESS` exactly when
every requested resource was created and the error list is empty;
`PARTIAL_SUCCESS` exactly when at least one but not all were created;
and `FAILED` exactly when zero were created *and at least one was
requested* — on a document with zero requested resources the code
reports `SUCCESS`, not `FAILED`. -/
theorem claim_C1_amended (doc : Document) (r : Remote) :
    ((orchestrate doc r).1.status = Status.Success ↔
       (orchestrate doc r).1.variables_created + (orchestrate doc r).1.triggers_created +
           (orchestrate doc r).1.tags_created =
         doc.vars.length + doc.triggers.length + doc.tags.length ∧
       (orchestrate doc r).1.errors = []) ∧
    ((orchestrate doc r).1.status = Status.PartialSuccess ↔
       0 < (orchestrate doc r).1.variables_created + (orchestrate doc r).1.triggers_created +
           (orchestrate doc r).1.tags_created ∧
       (orchestrate doc r).1.variables_created + (orchestrate doc r).1.triggers_created +
           (orchestrate doc r).1.tags_created <
         doc.vars.length + doc.triggers.length + doc.tags.length) ∧
    ((orchestrate doc r).1.status = Status.Failed ↔
       (orchestrate doc r).1.variables_created + (orchestrate doc r).1.triggers_created +
           (orchestrate doc r).1.tags_created = 0 ∧
       0 < doc.vars.length + doc.triggers.length + doc.tags.length) := by
  have hv := phaseErrors_length_add "variable" (fun v : VariableSpec => v.name)
    r.varResult 0 doc.vars
  have ht := phaseErrors_length_add "trigger" (fun t : TriggerSpec => t.name)
    r.trigResult 0 doc.triggers
  have hg := phaseErrors_length_add "tag" (fun t : TagSpec => t.name)
    r.tagResult 0 doc.tags
  rw [orchestrate_eq]
  simp only [orchestrateStats, finalStatus]
  exact status_classify _ _ _ _ _ _ _ _ _ hv ht hg

/-- C1, counterexample to the claim as stated: on a validated document
with zero requested resources, zero resources are created yet the
code's final status is `SUCCESS` — not `FAILED` as the claim's
zero-created clause demands. -/
theorem claim_C1_counterexample :
    (orchestrate (Document.mk [] [] [])
       (Remote.mk (fun _ => .ok ()) (fun _ => .ok "1") (fun _ => .ok ()))).1.status =
      Status.Success ∧
    (orchestrate (Document.mk [] [] [])
        (Remote.mk (fun _ => .ok ()) (fun _ => .ok "1") (fun _ => .ok ()))).1.variables_created
      + (orchestrate (Document.mk [] [] [])
          (Remote.mk (fun _ => .ok ()) (fun _ => .ok "1") (fun _ => .ok ()))).1.triggers_created
      + (orchestrate (Document.mk [] [] [])
          (Remote.mk (fun _ => .ok ()) (fun _ => .ok "1") (fun _ => .ok ()))).1.tags_created
      = 0 ∧
    Status.Success ≠ Status.Failed :=
  ⟨rfl, rfl, fun h => Status.noConfusion h⟩

theorem dictFind_insert (m : TriggerIdMap) (k v k2 : String) :
    dictFind (dictInsert m k v) k2 = if k = k2 then some v else dictFind m k2 := by
  induction m with
  | nil =>
    simp only [dictInsert, dictFind]
  | cons p rest ih =>
    obtain ⟨k0, v0⟩ := p
    simp only [dictInsert]
    by_cases h0 : k0 = k
    · subst h0
      simp only [if_pos rfl, dictFind]
      by_cases h : k0 = k2 <;> simp [h]
    · rw [if_neg h0]
      simp only [dictFind]
      by_cases h2 : k0 = k2
      · subst h2
        rw [if_pos rfl, if_pos rfl, if_neg (fun h => h0 h.symm)]
      · rw [if_neg h2, if_neg h2, ih]

theorem dictFind_foldl_insert (l : List (String × String)) :
    ∀ (m : TriggerIdMap) (nm : String),
    dictFind (l.foldl (fun m2 t => dictInsert m2 t.1 t.2) m) nm =
      (match l.reverse.find? (fun p => p.1 = nm) with
       | some p => some p.2
       | none => dictFind m nm) := by
  induction l with
  | nil => intro m nm; rfl
  | cons q rest ih =>
    intro m nm
    obtain ⟨k, v⟩ := q
    simp only [List.foldl_cons]
    rw [ih]
    simp only [List.reverse_cons, List.find?_append]
    cases h : rest.reverse.find? (fun p => p.1 = nm) with
    | some p => simp [Option.or]
    | none =>
      simp only [Option.or]
      rw [dictFind_insert]
      by_cases hk : k = nm <;> simp [List.find?, hk]

theorem dictFind_create_trigger_id_map (l : List (String × String)) (nm : String) :
    dictFind (create_trigger_id_map l) nm =
      (l.reverse.find? (fun p => p.1 = nm)).map (fun p => p.2) := by
  rw [create_trigger_id_map, dictFind_foldl_insert]
  cases h : l.reverse.find? (fun p => p.1 = nm) <;> simp [dictFind]

/-- C10.  The trigger-ID map the orchestrator builds is exactly the
name-keyed dictionary of the successfully created triggers
(`create_trigger_id_map` semantics, insertion order with overwrite),
so a name maps to the remote ID of the most recently created
successful trigger bearing it; and a document with duplicate trigger
names passes validation unrejected. -/
theorem claim_C10 (doc : Document) (r : Remote) :
    (orchestrate doc r).2.1 =
      create_trigger_id_map (successfulTriggers r.trigResult 0 doc.triggers) ∧
    (∀ nm, dictFind (orchestrate doc r).2.1 nm =
      lastSuccessfulTriggerId r.trigResult 0 doc.triggers nm) ∧
    validate_trigger_references
      (Document.mk [] [TriggerSpec.mk "A" "PAGEVIEW" none none none,
                       TriggerSpec.mk "A" "PAGEVIEW" none none none] []) = .ok () := by
  refine ⟨?_, ?_, rfl⟩
  · rw [orchestrate_eq]
  · intro nm
    rw [orchestrate_eq]
    simp only []
    rw [dictFind_create_trigger_id_map]
    rfl

/-- C6 (amended).  A per-item creation failure never aborts the run:
the orchestrator's error list is exactly one
`Failed to create <kind> '<name>': <cause>` message per failed item in
document order, each created-count counts exactly the successful calls
of its phase, every item of every phase is attempted in order, and a
name is absent from the trigger-ID map iff no *successfully created*
trigger bears it — so a failed trigger's name is absent unless a
same-named trigger was successfully created. -/
theorem claim_C6_amended (doc : Document) (r : Remote) :
    (orchestrate doc r).1.errors =
        phaseErrors "variable" (fun v => v.name) r.varResult 0 doc.vars
        ++ phaseErrors "trigger" (fun t => t.name) r.trigResult 0 doc.triggers
        ++ phaseErrors "tag" (fun t => t.name) r.tagResult 0 doc.tags ∧
    (orchestrate doc r).1.variables_created = phaseOkCount r.varResult 0 doc.vars ∧
    (orchestrate doc r).1.triggers_created = phaseOkCount r.trigResult 0 doc.triggers ∧
    (orchestrate doc r).1.tags_created = phaseOkCount r.tagResult 0 doc.tags ∧
    (orchestrate doc r).2.2 =
        doc.vars.map (fun v => RemoteCall.createVariable v.name)
        ++ doc.triggers.map (fun t => RemoteCall.createTrigger t.name)
        ++ doc.tags.map (fun t => RemoteCall.createTag
             (create_tag_request t (some (orchestrate doc r).2.1)).1) ∧
    (∀ nm, dictFind (orchestrate doc r).2.1 nm = none ↔
       ∀ p ∈ successfulTriggers r.trigResult 0 doc.triggers, p.1 ≠ nm) := by
  rw [orchestrate_eq]
  refine ⟨rfl, rfl, rfl, rfl, rfl, ?_⟩
  intro nm
  simp only []
  rw [dictFind_create_trigger_id_map]
  simp [List.find?_eq_none, List.mem_reverse]

theorem claim_C6_amended_witness :
    (orchestrate (Document.mk [] [TriggerSpec.mk "A" "PAGEVIEW" none none none] [])
       (Remote.mk (fun _ => .ok ()) (fun _ => .error "boom") (fun _ => .ok ()))).1.errors =
        phaseErrors "variable" (fun v => v.name)
          (Remote.mk (fun _ => .ok ()) (fun _ => .error "boom")
            (fun _ => .ok ())).varResult 0
          (Document.mk [] [TriggerSpec.mk "A" "PAGEVIEW" none none none] []).vars
        ++ phaseErrors "trigger" (fun t => t.name)
          (Remote.mk (fun _ => .ok ()) (fun _ => .error "boom")
            (fun _ => .ok ())).trigResult 0
          (Document.mk [] [TriggerSpec.mk "A" "PAGEVIEW" none none none] []).triggers
        ++ phaseErrors "tag" (fun t => t.name)
          (Remote.mk (fun _ => .ok ()) (fun _ => .error "boom")
            (fun _ => .ok ())).tagResult 0
          (Document.mk [] [TriggerSpec.mk "A" "PAGEVIEW" none none none] []).tags ∧
    (dictFind (orchestrate (Document.mk [] [TriggerSpec.mk "A" "PAGEVIEW" none none none] [])
       (Remote.mk (fun _ => .ok ()) (fun _ => .error "boom") (fun _ => .ok ()))).2.1 "A" =
         none ↔
       ∀ p ∈ successfulTriggers
         (Remote.mk (fun _ => .ok ()) (fun _ => .error "boom")
           (fun _ => .ok ())).trigResult 0
         (Document.mk [] [TriggerSpec.mk "A" "PAGEVIEW" none none none] []).triggers,
         p.1 ≠ "A") :=
  ⟨(claim_C6_amended (Document.mk [] [TriggerSpec.mk "A" "PAGEVIEW" none none none] [])
      (Remote.mk (fun _ => .ok ()) (fun _ => .error "boom") (fun _ => .ok ()))).1,
   (claim_C6_amended (Document.mk [] [TriggerSpec.mk "A" "PAGEVIEW" none none none] [])
      (Remote.mk (fun _ => .ok ()) (fun _ => .error "boom")
        (fun _ => .ok ()))).2.2.2.2.2 "A"⟩

/-- C6, counterexample to the claim as stated: with two triggers both
named `A`, the first failing and the second succeeding (remote ID
`7`), the failure of the first is recorded, yet the failed trigger's
name `A` is present in the trigger-ID map (bound to `7`). -/
theorem claim_C6_counterexample :
    (orchestrate
       (Document.mk [] [TriggerSpec.mk "A" "PAGEVIEW" none none none,
                        TriggerSpec.mk "A" "PAGEVIEW" none none none] [])
       (Remote.mk (fun _ => .ok ())
         (fun i => if i = 0 then .error "boom" else .ok "7")
         (fun _ => .ok ()))).1.errors = [failMsg "trigger" "A" "boom"] ∧
    dictFind (orchestrate
       (Document.mk [] [TriggerSpec.mk "A" "PAGEVIEW" none none none,
                        TriggerSpec.mk "A" "PAGEVIEW" none none none] [])
       (Remote.mk (fun _ => .ok ())
         (fun i => if i = 0 then .error "boom" else .ok "7")
         (fun _ => .ok ()))).2.1 "A" = some "7" :=
  ⟨rfl, rfl⟩
